import Mathlib

/-!
Shallow embedding of the macro-calculator component (src/src/App.vue and
src/unnamed/part_000, a Vue single-file component).  JavaScript numbers are
modelled as exact rationals; every integer the source produces with
Math.round is modelled with Int.floor of x + 1/2, which matches the
JavaScript rounding rule (nearest integer, ties toward positive infinity).
All inputs the claims range over are exactly representable decimals, and at
the decided concrete points the double-precision evaluation agrees with the
exact rational one, so the rational model is faithful where it is used.
-/

namespace MacroCalc

/-- JavaScript Math.round: nearest integer, ties toward positive infinity. -/
def jsRound (x : ℚ) : ℤ := ⌊x + 1/2⌋

/-- The Gender type of the source. -/
inductive Gender
  | male
  | female
  deriving DecidableEq, Repr

/-- The eight activity levels of the activityMultipliers table. -/
inductive ActivityLevel
  | bedRest
  | verySedentary
  | sedentary
  | light
  | lightModerate
  | moderate
  | heavy
  | veryHeavy
  deriving DecidableEq, Repr

/-- The reactive user inputs read by the rmr computation. -/
structure Profile where
  weight : ℚ
  height : ℚ
  age : ℚ
  gender : Gender
  deriving DecidableEq, Repr

/-- The activityMultipliers object literal of the source, as a function of
the value the gender ref holds at the moment the literal is evaluated. -/
def activityMultipliers (g : Gender) : ActivityLevel → ℚ
  | .bedRest => 1.2
  | .verySedentary => 1.3
  | .sedentary => 1.4
  | .light => 1.5
  | .lightModerate => if g = .male then 1.7 else 1.6
  | .moderate => if g = .male then 1.8 else 1.7
  | .heavy => if g = .male then 2.1 else 1.8
  | .veryHeavy => if g = .male then 2.3 else 2.0

/-- Initial value of the gender ref in the source. -/
def initialGender : Gender := .female

/-- The multiplier table the running application actually uses: the script
setup block evaluates the activityMultipliers object exactly once, while
gender still holds its initial value.  The object is a plain const, not a
computed ref, so later gender changes never re-evaluate it. -/
def appMultipliers : ActivityLevel → ℚ := activityMultipliers initialGender

/-- Result record of the rmr computed property. -/
structure RmrResult where
  mifflin : ℤ
  harris : ℤ
  average : ℤ
  deriving DecidableEq, Repr

/-- The rmr computed property of the source. -/
def rmr (p : Profile) : RmrResult :=
  let mifflin :=
    10 * p.weight + 6.25 * p.height - 5 * p.age +
      (if p.gender = .male then 5 else -161)
  let harris :=
    if p.gender = .male then
      88.362 + 13.397 * p.weight + 4.799 * p.height - 5.677 * p.age
    else
      447.593 + 9.247 * p.weight + 3.098 * p.height - 4.33 * p.age
  let average := (mifflin + harris) / 2
  { mifflin := jsRound mifflin
    harris := jsRound harris
    average := jsRound average }

/-- The tdee computed property: rounded RMR average times the multiplier the
frozen table assigns to the selected activity level. -/
def tdee (p : Profile) (lvl : ActivityLevel) : ℤ :=
  jsRound (((rmr p).average : ℚ) * appMultipliers lvl)

/-- The bodyCompositionTdee computed property. -/
def bodyCompositionTdee (t : ℤ) : ℤ × ℤ × ℤ := (t - 500, t, t + 500)

/-- The default profile of the source: weight 85.3, height 182, age 39,
gender female. -/
def defaultProfile : Profile := ⟨85.3, 182, 39, .female⟩

/-- The ActivityType of the carb cycling selector and the weekly planner. -/
inductive ActivityType
  | rest
  | light
  | moderate
  | hard
  deriving DecidableEq, Repr

/-- One row of the carbRanges table. -/
structure CarbRange where
  min : ℚ
  max : ℚ
  optimal : ℚ
  deriving DecidableEq, Repr

/-- The carbRanges lookup table of the source. -/
def carbRanges : ActivityType → CarbRange
  | .rest => ⟨0, 2.2, 1.1⟩
  | .light => ⟨1.1, 3.3, 2.2⟩
  | .moderate => ⟨2.2, 4.4, 3.3⟩
  | .hard => ⟨3.3, 5.5, 4.4⟩

/-- The carbsPerKg computed property of part_000: the optimal grams per kg
of the selected carb cycle tier. -/
def carbsPerKg (lvl : ActivityType) : ℚ := (carbRanges lvl).optimal

/-- Record returned by getDayMacros. -/
structure DayMacros where
  protein : ℤ
  carbs : ℤ
  fat : ℤ
  calories : ℤ
  deriving DecidableEq, Repr

/-- getDayMacros of the source: per-day grams of each macro and the day
total calories for a given activity tier. -/
def getDayMacros (weight proteinPerKg fatPerKg : ℚ) (t : ActivityType) : DayMacros :=
  let proteinGrams := jsRound (weight * proteinPerKg)
  let fatGrams := jsRound (weight * fatPerKg)
  let carbsGrams := jsRound (weight * (carbRanges t).optimal)
  let proteinCalories := proteinGrams * 4
  let fatCalories := fatGrams * 9
  let carbsCalories := carbsGrams * 4
  let totalCalories := proteinCalories + fatCalories + carbsCalories
  { protein := proteinGrams
    carbs := carbsGrams
    fat := fatGrams
    calories := totalCalories }

/-- One entry of the weekly plan ref. -/
structure DayPlanEntry where
  day : String
  type : ActivityType
  deriving DecidableEq, Repr

/-- Initial value of the weeklyPlan ref in the source. -/
def weeklyPlanInit : List DayPlanEntry :=
  [⟨"Monday", .moderate⟩, ⟨"Tuesday", .moderate⟩, ⟨"Wednesday", .moderate⟩,
   ⟨"Thursday", .moderate⟩, ⟨"Friday", .moderate⟩, ⟨"Saturday", .moderate⟩,
   ⟨"Sunday", .rest⟩]

/-- The weeklyDeficit computed property: TDEE times seven, minus the
reduce-accumulated day calories of the plan, passed through Math.round. -/
def weeklyDeficit (tdeeVal : ℤ) (weight proteinPerKg fatPerKg : ℚ)
    (plan : List DayPlanEntry) : ℤ :=
  jsRound
    ((tdeeVal * 7 -
        plan.foldl
          (fun acc day => acc + (getDayMacros weight proteinPerKg fatPerKg day.type).calories)
          0 : ℤ) : ℚ)

/-- Record returned by getWeightChangeEstimate. -/
structure WeightChangeEstimate where
  pounds : ℚ
  direction : String
  type : String
  deriving DecidableEq, Repr

/-- JavaScript Number.toFixed(1) on a nonnegative value, read back as the
rational it denotes: the nearest multiple of one tenth, ties rounded up. -/
def toFixed1 (x : ℚ) : ℚ := (⌊x * 10 + 1/2⌋ : ℚ) / 10

/-- getWeightChangeEstimate of the source, with the fixed constant of 3500
kilocalories per pound. -/
def getWeightChangeEstimate (weeklyDeficitVal : ℤ) : WeightChangeEstimate :=
  let poundsPerWeek : ℚ := (weeklyDeficitVal : ℚ) / 3500
  { pounds := toFixed1 |poundsPerWeek|
    direction := if weeklyDeficitVal > 0 then "loss" else "gain"
    type := if weeklyDeficitVal > 0 then "deficit" else "surplus" }

/-- The indexed forEach loop inside copyDaySettings: every entry whose index
differs from the source index gets the source activity type. -/
def copyLoop (fromType : ActivityType) (fromIndex : ℕ) :
    ℕ → List DayPlanEntry → List DayPlanEntry
  | _, [] => []
  | i, d :: rest =>
    (if i ≠ fromIndex then { d with type := fromType } else d) ::
      copyLoop fromType fromIndex (i + 1) rest

/-- copyDaySettings of the source: read the entry at the source index and
overwrite the activity type of every entry at a different index with its
type, leaving the source entry untouched. -/
def copyDaySettings (plan : List DayPlanEntry) (fromIndex : ℕ) : List DayPlanEntry :=
  match plan[fromIndex]? with
  | none => plan
  | some fromDay => copyLoop fromDay.type fromIndex 0 plan

/-- Percentage of one macro.  The source divides the macro calories by the
total calories and rounds; the division is not guarded, and when the total
is zero the JavaScript division returns a non-finite value (NaN for the
all-grams-zero case) that Math.round passes through, modelled here as none.
Otherwise the rounded percentage is returned as some value. -/
def percentageOf (calories totalCalories : ℤ) : Option ℤ :=
  if totalCalories = 0 then none
  else some (jsRound ((calories : ℚ) / (totalCalories : ℚ) * 100))

/-- One macro row of the macros computed property. -/
structure MacroInfo where
  grams : ℤ
  calories : ℤ
  percentage : Option ℤ
  deriving DecidableEq, Repr

/-- Result record of the macros computed property. -/
structure MacroTargets where
  protein : MacroInfo
  fat : MacroInfo
  carbs : MacroInfo
  totalCalories : ℤ
  deriving DecidableEq, Repr

/-- The macros computed property (the App.vue form, whose carbs slider is a
free grams-per-kg value; the part_000 form passes the optimal value of the
carb cycle tier for carbsPerKg and adds min and max gram fields that play no
role in the percentage computation). -/
def macros (weight proteinPerKg fatPerKg carbsPerKgVal : ℚ) : MacroTargets :=
  let proteinGrams := jsRound (weight * proteinPerKg)
  let fatGrams := jsRound (weight * fatPerKg)
  let carbsGrams := jsRound (weight * carbsPerKgVal)
  let proteinCalories := proteinGrams * 4
  let fatCalories := fatGrams * 9
  let carbsCalories := carbsGrams * 4
  let totalCalories := proteinCalories + fatCalories + carbsCalories
  { protein := ⟨proteinGrams, proteinCalories, percentageOf proteinCalories totalCalories⟩
    fat := ⟨fatGrams, fatCalories, percentageOf fatCalories totalCalories⟩
    carbs := ⟨carbsGrams, carbsCalories, percentageOf carbsCalories totalCalories⟩
    totalCalories := totalCalories }

/-- Evaluation of the rmr computation at the default inputs.  The raw
Mifflin value is exactly 1634.5, which Math.round takes to 1635 (ties go
up), and the female Harris-Benedict formula gives 1631.3281. -/
lemma rmr_defaultProfile_eval : rmr defaultProfile = ⟨1635, 1631, 1633⟩ := by
  have hg : (Gender.female = Gender.male) = False := by simp
  simp only [rmr, defaultProfile, jsRound, RmrResult.mk.injEq, hg, if_false]
  norm_num [Int.floor_eq_iff]

/-- The reduce of the source accumulates exactly the sum of the mapped day
calories. -/
lemma foldl_calories_eq_sum (f : DayPlanEntry → ℤ) :
    ∀ (l : List DayPlanEntry) (a : ℤ),
      l.foldl (fun acc d => acc + f d) a = a + (l.map f).sum := by
  intro l
  induction l with
  | nil => intro a; simp
  | cons d rest ih =>
    intro a
    simp only [List.foldl_cons, List.map_cons, List.sum_cons, ih]
    ring

lemma copyLoop_length (t : ActivityType) (fi : ℕ) :
    ∀ (l : List DayPlanEntry) (i : ℕ), (copyLoop t fi i l).length = l.length := by
  intro l
  induction l with
  | nil => intro i; rfl
  | cons d rest ih => intro i; simp [copyLoop, ih]

lemma copyLoop_getElem? (t : ActivityType) (fi : ℕ) :
    ∀ (l : List DayPlanEntry) (i j : ℕ),
      (copyLoop t fi i l)[j]? =
        (l[j]?).map (fun d => if i + j ≠ fi then { d with type := t } else d) := by
  intro l
  induction l with
  | nil => intro i j; simp [copyLoop]
  | cons d rest ih =>
    intro i j
    cases j with
    | zero => simp [copyLoop]
    | succ j =>
      simp only [copyLoop, List.getElem?_cons_succ, ih (i + 1) j,
        Nat.succ_add, Nat.add_succ]

lemma copyDaySettings_length (plan : List DayPlanEntry) (i : ℕ) :
    (copyDaySettings plan i).length = plan.length := by
  unfold copyDaySettings
  cases plan[i]? with
  | none => rfl
  | some fromDay => simp [copyLoop_length]

lemma copyDaySettings_getElem? (plan : List DayPlanEntry) (i : ℕ)
    (fromDay : DayPlanEntry) (hfd : plan[i]? = some fromDay) (j : ℕ) :
    (copyDaySettings plan i)[j]? =
      (plan[j]?).map (fun d => if j ≠ i then { d with type := fromDay.type } else d) := by
  unfold copyDaySettings
  rw [hfd]
  rw [copyLoop_getElem?]
  simp [Nat.zero_add]

lemma macros_calories_sum (w pK fK cK : ℚ) :
    (macros w pK fK cK).protein.calories + (macros w pK fK cK).fat.calories +
      (macros w pK fK cK).carbs.calories = (macros w pK fK cK).totalCalories := rfl

lemma macros_protein_pct (w pK fK cK : ℚ) :
    (macros w pK fK cK).protein.percentage =
      percentageOf (macros w pK fK cK).protein.calories
        (macros w pK fK cK).totalCalories := rfl

lemma macros_fat_pct (w pK fK cK : ℚ) :
    (macros w pK fK cK).fat.percentage =
      percentageOf (macros w pK fK cK).fat.calories
        (macros w pK fK cK).totalCalories := rfl

lemma macros_carbs_pct (w pK fK cK : ℚ) :
    (macros w pK fK cK).carbs.percentage =
      percentageOf (macros w pK fK cK).carbs.calories
        (macros w pK fK cK).totalCalories := rfl

lemma percentageOf_of_ne (c T : ℤ) (h : T ≠ 0) :
    percentageOf c T = some (jsRound ((c : ℚ) / (T : ℚ) * 100)) := if_neg h

lemma jsRound_le (x : ℚ) : (jsRound x : ℚ) ≤ x + 1/2 := Int.floor_le _

lemma lt_jsRound (x : ℚ) : x - 1/2 < (jsRound x : ℚ) := by
  have h := Int.lt_floor_add_one (x + 1/2)
  unfold jsRound
  push_cast at h
  linarith

/-- Three percentages of a positive total, each rounded independently, sum
to an integer within one and a half of one hundred on each side. -/
lemma percent_sum_bound (c₁ c₂ c₃ T : ℤ) (hT : 0 < T) (hsum : c₁ + c₂ + c₃ = T) :
    97 ≤ jsRound ((c₁ : ℚ) / T * 100) + jsRound ((c₂ : ℚ) / T * 100) +
        jsRound ((c₃ : ℚ) / T * 100) ∧
      jsRound ((c₁ : ℚ) / T * 100) + jsRound ((c₂ : ℚ) / T * 100) +
        jsRound ((c₃ : ℚ) / T * 100) ≤ 103 := by
  have hT0 : (T : ℚ) ≠ 0 := by
    have : (0 : ℚ) < (T : ℚ) := by exact_mod_cast hT
    linarith
  have hc : (c₁ : ℚ) + c₂ + c₃ = (T : ℚ) := by
    have h := congrArg (fun z : ℤ => (z : ℚ)) hsum
    push_cast at h
    exact h
  have hx : (c₁ : ℚ) / T * 100 + (c₂ : ℚ) / T * 100 + (c₃ : ℚ) / T * 100 = 100 := by
    have hrw : (c₁ : ℚ) / T * 100 + (c₂ : ℚ) / T * 100 + (c₃ : ℚ) / T * 100 =
        ((c₁ : ℚ) + c₂ + c₃) / T * 100 := by ring
    rw [hrw, hc, div_self hT0, one_mul]
  have h₁ := jsRound_le ((c₁ : ℚ) / T * 100)
  have h₂ := jsRound_le ((c₂ : ℚ) / T * 100)
  have h₃ := jsRound_le ((c₃ : ℚ) / T * 100)
  have g₁ := lt_jsRound ((c₁ : ℚ) / T * 100)
  have g₂ := lt_jsRound ((c₂ : ℚ) / T * 100)
  have g₃ := lt_jsRound ((c₃ : ℚ) / T * 100)
  have hup : ((jsRound ((c₁ : ℚ) / T * 100) + jsRound ((c₂ : ℚ) / T * 100) +
      jsRound ((c₃ : ℚ) / T * 100) : ℤ) : ℚ) < 102 := by
    push_cast
    linarith
  have hlo : (98 : ℚ) < ((jsRound ((c₁ : ℚ) / T * 100) + jsRound ((c₂ : ℚ) / T * 100) +
      jsRound ((c₃ : ℚ) / T * 100) : ℤ) : ℚ) := by
    push_cast
    linarith
  have hup' : jsRound ((c₁ : ℚ) / T * 100) + jsRound ((c₂ : ℚ) / T * 100) +
      jsRound ((c₃ : ℚ) / T * 100) < 102 := by exact_mod_cast hup
  have hlo' : (98 : ℤ) < jsRound ((c₁ : ℚ) / T * 100) + jsRound ((c₂ : ℚ) / T * 100) +
      jsRound ((c₃ : ℚ) / T * 100) := by exact_mod_cast hlo
  omega

lemma macros_default_total : (macros 85.3 1.8 1.0 3.5).totalCalories = 2577 := by
  simp only [macros]
  norm_num [jsRound, Int.floor_eq_iff]

/-- Claim C1: for every profile, the rmr computation returns the
Mifflin-St Jeor value, the sex-specific Harris-Benedict value and the
average of the two un-rounded intermediates, each rounded to the nearest
integer independently. -/
theorem rmr_formula (p : Profile) :
    (rmr p).mifflin =
      jsRound (10 * p.weight + 6.25 * p.height - 5 * p.age +
        (if p.gender = .male then 5 else -161)) ∧
    (rmr p).harris =
      jsRound (if p.gender = .male then
          88.362 + 13.397 * p.weight + 4.799 * p.height - 5.677 * p.age
        else
          447.593 + 9.247 * p.weight + 3.098 * p.height - 4.33 * p.age) ∧
    (rmr p).average =
      jsRound (((10 * p.weight + 6.25 * p.height - 5 * p.age +
          (if p.gender = .male then 5 else -161)) +
        (if p.gender = .male then
          88.362 + 13.397 * p.weight + 4.799 * p.height - 5.677 * p.age
        else
          447.593 + 9.247 * p.weight + 3.098 * p.height - 4.33 * p.age)) / 2) := by
  refine ⟨rfl, rfl, rfl⟩

/-- Claim C2, counterexample: at the default input the code does not return
mifflin 1634, harris 1578, average 1606. -/
theorem rmr_default_ne_claimed :
    ¬ ((rmr defaultProfile).mifflin = 1634 ∧
       (rmr defaultProfile).harris = 1578 ∧
       (rmr defaultProfile).average = 1606) := by
  rw [rmr_defaultProfile_eval]
  intro h
  exact absurd h.1 (by decide)

/-- Claim C2, amended: at weight 85.3, height 182, age 39, gender female the
code returns mifflin 1635, harris 1631 and average 1633. -/
theorem rmr_default_values :
    (rmr defaultProfile).mifflin = 1635 ∧
    (rmr defaultProfile).harris = 1631 ∧
    (rmr defaultProfile).average = 1633 := by
  rw [rmr_defaultProfile_eval]
  exact ⟨rfl, rfl, rfl⟩

/-- Claim C3: for every profile and activity level, tdee is the rounding of
the already-rounded RMR average times the table multiplier of the level, and
the sedentary multiplier is 1.4 under both genders. -/
theorem tdee_formula :
    (∀ (p : Profile) (lvl : ActivityLevel),
        tdee p lvl = jsRound (((rmr p).average : ℚ) * appMultipliers lvl)) ∧
    (∀ g : Gender, activityMultipliers g .sedentary = 1.4) := by
  refine ⟨fun p lvl => rfl, fun g => rfl⟩

/-- Claim C4, code divergence: the multiplier table is frozen at setup time
with the initial female gender, so the running application maps the top four
tiers to 1.6, 1.7, 1.8 and 2.0 no matter what the gender ref later holds,
and the tdee of every profile, male ones included, uses the female heavy
multiplier 1.8 rather than the 2.1 written in the male branch of the
table literal. -/
theorem appMultipliers_frozen_female :
    appMultipliers .lightModerate = 1.6 ∧
    appMultipliers .moderate = 1.7 ∧
    appMultipliers .heavy = 1.8 ∧
    appMultipliers .veryHeavy = 2.0 ∧
    activityMultipliers .male .heavy = 2.1 ∧
    (∀ p : Profile, tdee p .heavy = jsRound (((rmr p).average : ℚ) * 1.8)) := by
  refine ⟨rfl, rfl, rfl, rfl, rfl, fun p => rfl⟩

/-- Claim C5: for every 7-day plan the weekly deficit is the rounding of
TDEE times seven minus the summed day calories, where the protein and fat
grams of a day do not depend on its activity tier and the carb grams are
driven by the optimal grams per kg of the tier. -/
theorem weeklyDeficit_formula (tdeeVal : ℤ) (w pK fK : ℚ)
    (plan : List DayPlanEntry) (h7 : plan.length = 7) :
    weeklyDeficit tdeeVal w pK fK plan =
      jsRound
        ((tdeeVal * 7 -
            (plan.map (fun d => (getDayMacros w pK fK d.type).calories)).sum : ℤ) : ℚ) ∧
    (∀ t₁ t₂ : ActivityType,
      (getDayMacros w pK fK t₁).protein = (getDayMacros w pK fK t₂).protein ∧
      (getDayMacros w pK fK t₁).fat = (getDayMacros w pK fK t₂).fat) ∧
    (∀ t : ActivityType,
      (getDayMacros w pK fK t).carbs = jsRound (w * (carbRanges t).optimal)) := by
  refine ⟨?_, fun t₁ t₂ => ⟨rfl, rfl⟩, fun t => rfl⟩
  unfold weeklyDeficit
  rw [foldl_calories_eq_sum]
  simp

/-- Witness for claim C5 at the initial plan and the default slider values. -/
theorem weeklyDeficit_formula_witness :
    weeklyPlanInit.length = 7 ∧
    weeklyDeficit 2286 85.3 1.8 1.0 weeklyPlanInit =
      jsRound
        ((2286 * 7 -
            (weeklyPlanInit.map
              (fun d => (getDayMacros 85.3 1.8 1.0 d.type).calories)).sum : ℤ) : ℚ) :=
  ⟨rfl, (weeklyDeficit_formula 2286 85.3 1.8 1.0 weeklyPlanInit rfl).1⟩

/-- Claim C6: for every integer weekly deficit, the direction is loss when
the deficit is positive and gain otherwise, and the pounds figure is the
absolute deficit over 3500 rounded to one decimal place. -/
theorem weightChange_formula (d : ℤ) :
    (getWeightChangeEstimate d).direction = (if 0 < d then "loss" else "gain") ∧
    (getWeightChangeEstimate d).pounds = (⌊|(d : ℚ)| / 3500 * 10 + 1/2⌋ : ℚ) / 10 := by
  refine ⟨rfl, ?_⟩
  simp only [getWeightChangeEstimate, toFixed1]
  rw [abs_div, show |(3500 : ℚ)| = 3500 from by norm_num]

/-- Claim C7: applying copyDaySettings to a 7-entry plan at an index below 7
leaves every entry with the activity type the source entry had before the
call. -/
theorem copyDaySettings_all_equal (plan : List DayPlanEntry) (i : ℕ)
    (h7 : plan.length = 7) (hi : i < 7) (j : ℕ) (hj : j < 7) :
    (copyDaySettings plan i).length = 7 ∧
    ((copyDaySettings plan i)[j]?).map DayPlanEntry.type =
      (plan[i]?).map DayPlanEntry.type := by
  have hi' : i < plan.length := by omega
  have hj' : j < plan.length := by omega
  refine ⟨by rw [copyDaySettings_length, h7], ?_⟩
  have hfd : plan[i]? = some (plan.get ⟨i, hi'⟩) := by
    rw [List.getElem?_eq_getElem hi']
    rfl
  rw [copyDaySettings_getElem? plan i _ hfd, hfd,
    List.getElem?_eq_getElem hj']
  by_cases hji : j = i
  · subst hji
    simp
  · simp [hji]

/-- Witness for claim C7 at the initial plan, source index 2, entry 6. -/
theorem copyDaySettings_all_equal_witness :
    weeklyPlanInit.length = 7 ∧
    ((copyDaySettings weeklyPlanInit 2)[6]?).map DayPlanEntry.type =
      (weeklyPlanInit[2]?).map DayPlanEntry.type :=
  ⟨rfl, (copyDaySettings_all_equal weeklyPlanInit 2 rfl (by decide) 6 (by decide)).2⟩

/-- Claim C10: copyDaySettings keeps the plan at 7 entries in order, keeps
every day name, and leaves the source entry itself unchanged. -/
theorem copyDaySettings_frame (plan : List DayPlanEntry) (i : ℕ)
    (h7 : plan.length = 7) (hi : i < 7) (j : ℕ) (hj : j < 7) :
    (copyDaySettings plan i).length = 7 ∧
    ((copyDaySettings plan i)[j]?).map DayPlanEntry.day =
      (plan[j]?).map DayPlanEntry.day ∧
    (copyDaySettings plan i)[i]? = plan[i]? := by
  have hi' : i < plan.length := by omega
  have hj' : j < plan.length := by omega
  have hfd : plan[i]? = some (plan.get ⟨i, hi'⟩) := by
    rw [List.getElem?_eq_getElem hi']
    rfl
  refine ⟨by rw [copyDaySettings_length, h7], ?_, ?_⟩
  · rw [copyDaySettings_getElem? plan i _ hfd,
      List.getElem?_eq_getElem hj']
    by_cases hji : j = i
    · subst hji
      simp
    · simp [hji]
  · rw [copyDaySettings_getElem? plan i _ hfd, hfd]
    simp

/-- Witness for claim C10 at the initial plan, source index 4, entry 1. -/
theorem copyDaySettings_frame_witness :
    weeklyPlanInit.length = 7 ∧
    (copyDaySettings weeklyPlanInit 4)[4]? = weeklyPlanInit[4]? :=
  ⟨rfl, (copyDaySettings_frame weeklyPlanInit 4 rfl (by decide) 1 (by decide)).2.2⟩

/-- Claim C8: with positive weight and positive total calories, each macro
percentage is the independently rounded share of the total, and the three
percentages sum to a value within the band from 97 to 103. -/
theorem macros_percentage_formula (w pK fK cK : ℚ) (hw : 0 < w)
    (hT : 0 < (macros w pK fK cK).totalCalories) :
    ((macros w pK fK cK).protein.percentage =
        some (jsRound (((macros w pK fK cK).protein.calories : ℚ) /
          ((macros w pK fK cK).totalCalories : ℚ) * 100)) ∧
      (macros w pK fK cK).fat.percentage =
        some (jsRound (((macros w pK fK cK).fat.calories : ℚ) /
          ((macros w pK fK cK).totalCalories : ℚ) * 100)) ∧
      (macros w pK fK cK).carbs.percentage =
        some (jsRound (((macros w pK fK cK).carbs.calories : ℚ) /
          ((macros w pK fK cK).totalCalories : ℚ) * 100))) ∧
    ∃ pp fp cp : ℤ,
      (macros w pK fK cK).protein.percentage = some pp ∧
      (macros w pK fK cK).fat.percentage = some fp ∧
      (macros w pK fK cK).carbs.percentage = some cp ∧
      97 ≤ pp + fp + cp ∧ pp + fp + cp ≤ 103 := by
  have hTne : (macros w pK fK cK).totalCalories ≠ 0 := hT.ne'
  have hp := (macros_protein_pct w pK fK cK).trans
    (percentageOf_of_ne _ _ hTne)
  have hf := (macros_fat_pct w pK fK cK).trans
    (percentageOf_of_ne _ _ hTne)
  have hc := (macros_carbs_pct w pK fK cK).trans
    (percentageOf_of_ne _ _ hTne)
  obtain ⟨h97, h103⟩ := percent_sum_bound
    (macros w pK fK cK).protein.calories
    (macros w pK fK cK).fat.calories
    (macros w pK fK cK).carbs.calories
    (macros w pK fK cK).totalCalories hT (macros_calories_sum w pK fK cK)
  exact ⟨⟨hp, hf, hc⟩, _, _, _, hp, hf, hc, h97, h103⟩

/-- Witness for claim C8 at the default inputs of App.vue. -/
theorem macros_percentage_formula_witness :
    0 < (85.3 : ℚ) ∧ 0 < (macros 85.3 1.8 1.0 3.5).totalCalories ∧
    (macros 85.3 1.8 1.0 3.5).protein.percentage =
      some (jsRound (((macros 85.3 1.8 1.0 3.5).protein.calories : ℚ) /
        ((macros 85.3 1.8 1.0 3.5).totalCalories : ℚ) * 100)) :=
  ⟨by norm_num, by rw [macros_default_total]; norm_num,
    ((macros_percentage_formula 85.3 1.8 1.0 3.5 (by norm_num)
      (by rw [macros_default_total]; norm_num)).1).1⟩

/-- Claim C9: at weight zero every macro gram count is zero, the total is
zero, and the unguarded percentage division returns the non-finite marker
for each macro while the computation itself still returns a record. -/
theorem macros_zero_weight_percentages :
    (macros 0 1.8 1.0 3.5).totalCalories = 0 ∧
    (macros 0 1.8 1.0 3.5).protein.grams = 0 ∧
    (macros 0 1.8 1.0 3.5).fat.grams = 0 ∧
    (macros 0 1.8 1.0 3.5).carbs.grams = 0 ∧
    (macros 0 1.8 1.0 3.5).protein.percentage = none ∧
    (macros 0 1.8 1.0 3.5).fat.percentage = none ∧
    (macros 0 1.8 1.0 3.5).carbs.percentage = none := by
  have h0 : jsRound (0 : ℚ) = 0 := by norm_num [jsRound, Int.floor_eq_iff]
  simp [macros, percentageOf, h0]

end MacroCalc
